import Mathlib

/-!
Shallow embedding of the two-endpoint calculator service (routes /add and
/subtract with validation middleware) from the TDD-with-NodeJs repository.

The middleware code is taken verbatim from the walkthrough in README.md:

  app.use(function(req, res, next)\x7b
    var a = parseInt(req.query.a),
    b = parseInt(req.query.b);
    if (!a || !b || isNaN(a) || isNaN(b))\x7b
      return res.status(422).end("You must specify two numbers as query params, A and B");
    \x7d
    req.a = a;
    req.b = b;
    return next();
  \x7d);

as is the add route handler (routes/add.js):

  module.exports = function(req, res, next)\x7b
    return res.json(\x7b result : add(req.a, req.b) \x7d);
  \x7d;

JavaScript numbers produced by parseInt are either NaN or integer valued;
we model such a value as Option Int, with none standing for NaN.  (The
double-precision range limit of JavaScript numbers is idealised away:
integers are exact.)
-/

/-- A JavaScript number as produced by parseInt: an integer, or NaN
(modelled by none). -/
abbrev JSNum := Option Int

/-- Truthiness test on a number: in JavaScript both 0 and NaN are falsy,
so this models the source expression given by a bang before a parseInt
result. -/
def jsNot : JSNum → Bool
  | none => true
  | some n => n == 0

/-- The global isNaN predicate applied to a parseInt result. -/
def isNaN (a : JSNum) : Bool := a.isNone

/-! ### parseInt

Model of the ECMAScript parseInt applied to a query-string value, with the
radix argument omitted as in the source: skip leading whitespace, read an
optional sign, detect a 0x or 0X prefix (hexadecimal), then take the
longest prefix of digits of the chosen radix; if that prefix is empty the
result is NaN.  A missing query parameter is undefined in JavaScript, and
parseInt(undefined) is NaN. -/

/-- Characters skipped by parseInt before the number: the common
ECMAScript whitespace code points. -/
def isJsWhitespace (c : Char) : Bool :=
  c = ' ' || c = '\t' || c = '\n' || c = '\r' ||
    c.toNat = 11 || c.toNat = 12 || c.toNat = 160 || c.toNat = 65279

/-- Drop the leading whitespace of a character list. -/
def skipWs : List Char → List Char
  | [] => []
  | c :: cs => if isJsWhitespace c then skipWs cs else c :: cs

/-- Value of a decimal digit character, none for any other character. -/
def decDigitVal (c : Char) : Option Nat :=
  if 48 ≤ c.toNat && c.toNat ≤ 57 then some (c.toNat - 48) else none

/-- Value of a hexadecimal digit character, none for any other
character. -/
def hexDigitVal (c : Char) : Option Nat :=
  if 48 ≤ c.toNat && c.toNat ≤ 57 then some (c.toNat - 48)
  else if 97 ≤ c.toNat && c.toNat ≤ 102 then some (c.toNat - 87)
  else if 65 ≤ c.toNat && c.toNat ≤ 70 then some (c.toNat - 55)
  else none

/-- Accumulate the longest prefix of digits (for the digit test dv and the
given radix) into acc, stopping at the first non-digit. -/
def parseDigitsAux (dv : Char → Option Nat) (radix : Nat) :
    List Char → Nat → Nat
  | [], acc => acc
  | c :: cs, acc =>
    match dv c with
    | some d => parseDigitsAux dv radix cs (acc * radix + d)
    | none => acc

/-- Parse an unsigned numeral: NaN (none) when the first character is not
a digit, otherwise the value of the longest digit prefix. -/
def parseUnsigned (dv : Char → Option Nat) (radix : Nat)
    (cs : List Char) : Option Nat :=
  match cs with
  | [] => none
  | c :: _ =>
    match dv c with
    | some _ => some (parseDigitsAux dv radix cs 0)
    | none => none

/-- After the optional sign: a 0x or 0X prefix selects hexadecimal,
anything else is read as decimal. -/
def parseAfterSign (cs : List Char) : Option Nat :=
  match cs with
  | c0 :: c1 :: rest =>
    if c0 = '0' && (c1 = 'x' || c1 = 'X') then parseUnsigned hexDigitVal 16 rest
    else parseUnsigned decDigitVal 10 cs
  | _ => parseUnsigned decDigitVal 10 cs

/-- parseInt on the characters of a string: whitespace, optional sign,
magnitude. -/
def parseIntCore (s : List Char) : Option Int :=
  match skipWs s with
  | [] => none
  | c :: rest =>
    if c = '-' then (parseAfterSign rest).map (fun n => -(n : Int))
    else if c = '+' then (parseAfterSign rest).map (fun n => (n : Int))
    else (parseAfterSign (c :: rest)).map (fun n => (n : Int))

/-- parseInt applied to a query-string value that may be absent:
parseInt(undefined) is NaN. -/
def parseIntJS : Option String → JSNum
  | none => none
  | some s => parseIntCore s.data

/-! ### Requests, responses and the pipeline -/

/-- The two mounted routes (app.get in app.js). -/
inductive RoutePath
  | add
  | subtract
deriving DecidableEq, Repr

/-- The query string fields the service reads: req.query.a and
req.query.b, each a string when present. -/
structure Query where
  a : Option String
  b : Option String
deriving DecidableEq, Repr

/-- An incoming GET request to one of the two routes. -/
structure Request where
  path : RoutePath
  query : Query
deriving DecidableEq, Repr

/-- A response body: plain text (res.end of a string) or the JSON object
with the single result field (res.json). -/
inductive Body
  | text (s : String)
  | json (result : JSNum)
deriving DecidableEq, Repr

/-- An HTTP response: status code and body. -/
structure Response where
  status : Nat
  body : Body
deriving DecidableEq, Repr

/-- A request after the middleware mutation req.a = a; req.b = b: the
original request together with the two attached numbers. -/
structure AnnotatedRequest where
  req : Request
  a : JSNum
  b : JSNum
deriving DecidableEq, Repr

/-- The plain-text body of the 422 response, verbatim from the source. -/
def errorBody : String := "You must specify two numbers as query params, A and B"

/-- The validation middleware from README.md (app.use): parse the two
query parameters, fail with 422 when either is falsy or NaN, otherwise
attach both numbers to the request and hand over to the next stage
(Except.ok is next(), Except.error is the early res.status(422).end). -/
def middleware (req : Request) : Except Response AnnotatedRequest :=
  let a := parseIntJS req.query.a
  let b := parseIntJS req.query.b
  if jsNot a || jsNot b || isNaN a || isNaN b then
    Except.error { status := 422, body := Body.text errorBody }
  else
    Except.ok { req := req, a := a, b := b }

/-- Modelled from the spec: the final implementation of lib/add is not in
the repository text (the walkthrough leaves it behind a link; the checked
in stub returns 0), so it is taken from the spec: the arithmetic sum,
with NaN propagating as JavaScript addition does. -/
def add : JSNum → JSNum → JSNum
  | some x, some y => some (x + y)
  | _, _ => none

/-- Modelled from the spec: the final implementation of lib/subtract,
the arithmetic difference a - b, NaN propagating. -/
def subtract : JSNum → JSNum → JSNum
  | some x, some y => some (x - y)
  | _, _ => none

/-- The add route handler (routes/add.js): res.json of the result of
add(req.a, req.b), status 200. -/
def addRoute (r : AnnotatedRequest) : Response :=
  { status := 200, body := Body.json (add r.a r.b) }

/-- The subtract route handler (routes/subtract.js), analogous to the add
route. -/
def subtractRoute (r : AnnotatedRequest) : Response :=
  { status := 200, body := Body.json (subtract r.a r.b) }

/-- Dispatch of a validated request to the operation handler mounted at
its path. -/
def dispatch (p : RoutePath) (r : AnnotatedRequest) : Response :=
  match p with
  | RoutePath.add => addRoute r
  | RoutePath.subtract => subtractRoute r

/-- Modelled from the spec: the composition of the pipeline.  The checked
in app.js is the boilerplate state without the middleware; the walkthrough
installs the app.use middleware ahead of the two routes (its integration
tests require the middleware to run first), so per the spec the pipeline
is middleware, then operation handler. -/
def app (req : Request) : Response :=
  match middleware req with
  | Except.error res => res
  | Except.ok r => dispatch req.path r

/-- The server processing a sequence of incoming requests: each request is
handled independently, with no state carried between them. -/
def serve (reqs : List Request) : List Response := reqs.map app

/-- Variant middleware named by the redundancy claim: the failure
condition reduced to the two falsy checks alone, everything else as in
middleware. -/
def middlewareNoNaNCheck (req : Request) : Except Response AnnotatedRequest :=
  let a := parseIntJS req.query.a
  let b := parseIntJS req.query.b
  if jsNot a || jsNot b then
    Except.error { status := 422, body := Body.text errorBody }
  else
    Except.ok { req := req, a := a, b := b }

/-! ### Decimal rendering of integers

For the functional-correctness claims a request carries an integer in its
query string; intRepr is the decimal rendering JavaScript would produce
for an integer value (String(n)). -/

/-- The character of a single decimal digit. -/
def digitChar (d : Nat) : Char :=
  match d with
  | 0 => '0' | 1 => '1' | 2 => '2' | 3 => '3' | 4 => '4'
  | 5 => '5' | 6 => '6' | 7 => '7' | 8 => '8' | _ => '9'

/-- Decimal digits of a natural number, most significant first. -/
def natDigits (n : Nat) : List Char :=
  if _h : n < 10 then [digitChar n]
  else natDigits (n / 10) ++ [digitChar (n % 10)]
decreasing_by exact Nat.div_lt_self (by omega) (by omega)

/-- Decimal rendering of an integer, with a leading minus sign when
negative. -/
def intRepr (x : Int) : String :=
  if x < 0 then String.mk ('-' :: natDigits x.natAbs)
  else String.mk (natDigits x.toNat)

/-- The request GET p?a=x&b=y with the two integers rendered in decimal
in the query string. -/
def requestFor (p : RoutePath) (x y : Int) : Request :=
  { path := p, query := { a := some (intRepr x), b := some (intRepr y) } }

/-! ### Digit and round-trip lemmas -/

lemma decDigitVal_digitChar {d : Nat} (h : d < 10) :
    decDigitVal (digitChar d) = some d := by
  interval_cases d <;> decide

lemma digitChar_not_special {d : Nat} (h : d < 10) :
    isJsWhitespace (digitChar d) = false ∧ digitChar d ≠ '-' ∧
      digitChar d ≠ '+' ∧ digitChar d ≠ 'x' ∧ digitChar d ≠ 'X' := by
  interval_cases d <;> exact ⟨by decide, by decide, by decide, by decide, by decide⟩

lemma natDigits_ne_nil (n : Nat) : natDigits n ≠ [] := by
  rw [natDigits]; split <;> simp

lemma natDigits_all_digits (n : Nat) :
    ∀ c ∈ natDigits n, ∃ d, d < 10 ∧ c = digitChar d := by
  induction n using Nat.strong_induction_on with
  | _ n ih =>
    rw [natDigits]
    split
    · next h =>
      intro c hc
      simp only [List.mem_singleton] at hc
      exact ⟨n, h, hc⟩
    · next h =>
      intro c hc
      rcases List.mem_append.mp hc with h1 | h2
      · exact ih (n / 10) (Nat.div_lt_self (by omega) (by omega)) c h1
      · simp only [List.mem_singleton] at h2
        exact ⟨n % 10, Nat.mod_lt _ (by omega), h2⟩

lemma parseDigitsAux_natDigits (n : Nat) :
    ∀ acc rest, parseDigitsAux decDigitVal 10 (natDigits n ++ rest) acc =
      parseDigitsAux decDigitVal 10 rest (acc * 10 ^ (natDigits n).length + n) := by
  induction n using Nat.strong_induction_on with
  | _ n ih =>
    intro acc rest
    rw [natDigits]
    split
    · next h =>
      simp [parseDigitsAux, decDigitVal_digitChar h]
    · next h =>
      rw [List.append_assoc, ih (n / 10) (Nat.div_lt_self (by omega) (by omega))]
      have hstep : parseDigitsAux decDigitVal 10
          (digitChar (n % 10) :: rest) (acc * 10 ^ (natDigits (n / 10)).length + n / 10) =
          parseDigitsAux decDigitVal 10 rest
            ((acc * 10 ^ (natDigits (n / 10)).length + n / 10) * 10 + n % 10) := by
        simp [parseDigitsAux, decDigitVal_digitChar (show n % 10 < 10 by omega)]
      simp only [List.cons_append, List.nil_append] at hstep ⊢
      rw [hstep]
      have harith : (acc * 10 ^ (natDigits (n / 10)).length + n / 10) * 10 + n % 10 =
          acc * 10 ^ (natDigits (n / 10) ++ [digitChar (n % 10)]).length + n := by
        simp only [List.length_append, List.length_singleton]
        rw [pow_succ, ← mul_assoc]
        generalize acc * 10 ^ (natDigits (n / 10)).length = t
        omega
      rw [harith]

lemma parseUnsigned_natDigits (n : Nat) :
    parseUnsigned decDigitVal 10 (natDigits n) = some n := by
  have h0 : parseDigitsAux decDigitVal 10 (natDigits n) 0 = n := by
    have hh := parseDigitsAux_natDigits n 0 []
    simpa [parseDigitsAux] using hh
  cases hct : natDigits n with
  | nil => exact absurd hct (natDigits_ne_nil n)
  | cons c tl =>
    obtain ⟨d, hd, hcd⟩ := natDigits_all_digits n c (by rw [hct]; exact List.mem_cons_self c tl)
    rw [hct] at h0
    subst hcd
    simp [parseUnsigned, decDigitVal_digitChar hd, h0]

lemma parseAfterSign_natDigits (n : Nat) :
    parseAfterSign (natDigits n) = some n := by
  have hu := parseUnsigned_natDigits n
  cases hct : natDigits n with
  | nil => exact absurd hct (natDigits_ne_nil n)
  | cons c0 tl =>
    rw [hct] at hu
    cases tl with
    | nil => simpa [parseAfterSign] using hu
    | cons c1 rest =>
      obtain ⟨d, hd, hcd⟩ := natDigits_all_digits n c1
        (by rw [hct]; exact List.mem_cons_of_mem c0 (List.mem_cons_self c1 rest))
      obtain ⟨-, -, -, hx, hX⟩ := digitChar_not_special hd
      rw [← hcd] at hx hX
      simp [parseAfterSign, hx, hX, hu]

lemma skipWs_cons_of_not_ws {c : Char} (h : isJsWhitespace c = false)
    (cs : List Char) : skipWs (c :: cs) = c :: cs := by
  simp [skipWs, h]

lemma parseIntCore_intRepr (x : Int) : parseIntCore (intRepr x).data = some x := by
  by_cases hx : x < 0
  · have hdata : (intRepr x).data = '-' :: natDigits x.natAbs := by
      rw [intRepr, if_pos hx]
    rw [hdata, parseIntCore, skipWs_cons_of_not_ws (by decide)]
    simp [parseAfterSign_natDigits x.natAbs]
    rw [abs_of_nonpos hx.le]
    ring
  · have hdata : (intRepr x).data = natDigits x.toNat := by
      rw [intRepr, if_neg hx]
    cases hct : natDigits x.toNat with
    | nil => exact absurd hct (natDigits_ne_nil x.toNat)
    | cons c tl =>
      obtain ⟨d, hd, hcd⟩ := natDigits_all_digits x.toNat c
        (by rw [hct]; exact List.mem_cons_self c tl)
      obtain ⟨hws, hminus, hplus, -, -⟩ := digitChar_not_special hd
      rw [← hcd] at hws hminus hplus
      rw [hdata, hct, parseIntCore, skipWs_cons_of_not_ws hws]
      have hu : parseAfterSign (c :: tl) = some x.toNat := by
        rw [← hct]; exact parseAfterSign_natDigits x.toNat
      simp [hminus, hplus, hu]
      omega

lemma parseIntJS_intRepr (x : Int) : parseIntJS (some (intRepr x)) = some x :=
  parseIntCore_intRepr x

/-! ### Middleware lemmas -/

lemma middleware_ok_of (req : Request) {x y : Int}
    (ha : parseIntJS req.query.a = some x) (hx : x ≠ 0)
    (hb : parseIntJS req.query.b = some y) (hy : y ≠ 0) :
    middleware req = Except.ok { req := req, a := some x, b := some y } := by
  simp [middleware, ha, hb, jsNot, isNaN, hx, hy]

lemma middleware_error_of (req : Request)
    (h : parseIntJS req.query.a = none ∨ parseIntJS req.query.a = some 0 ∨
         parseIntJS req.query.b = none ∨ parseIntJS req.query.b = some 0) :
    middleware req = Except.error { status := 422, body := Body.text errorBody } := by
  rcases h with h | h | h | h <;> simp [middleware, h, jsNot, isNaN]

lemma middleware_ok_inv {req : Request} {r : AnnotatedRequest}
    (h : middleware req = Except.ok r) :
    r.req = req ∧
      (∃ x, parseIntJS req.query.a = some x ∧ x ≠ 0 ∧ r.a = some x) ∧
      (∃ y, parseIntJS req.query.b = some y ∧ y ≠ 0 ∧ r.b = some y) := by
  simp only [middleware] at h
  cases ha : parseIntJS req.query.a with
  | none => rw [ha] at h; simp [jsNot] at h
  | some x =>
    cases hb : parseIntJS req.query.b with
    | none => rw [ha, hb] at h; simp [jsNot] at h
    | some y =>
      rw [ha, hb] at h
      by_cases hx : x = 0
      · subst hx; simp [jsNot] at h
      · by_cases hy : y = 0
        · subst hy; simp [jsNot] at h
        · simp [jsNot, isNaN, hx, hy] at h
          exact ⟨by rw [← h], ⟨x, rfl, hx, by rw [← h]⟩, ⟨y, rfl, hy, by rw [← h]⟩⟩

/-! ### Claims -/

/-- C1: an operation handler executes only after the validation middleware
has completed successfully: whenever the middleware forwards, the pipeline
response is the dispatched handler response, and both operands it runs
with are genuine (non-NaN) integers, nonzero as well. -/
theorem c1_handler_only_after_validation (req : Request) (r : AnnotatedRequest)
    (h : middleware req = Except.ok r) :
    app req = dispatch req.path r ∧
      (∃ x, r.a = some x ∧ x ≠ 0) ∧ (∃ y, r.b = some y ∧ y ≠ 0) := by
  obtain ⟨-, ⟨x, -, hx, hra⟩, ⟨y, -, hy, hrb⟩⟩ := middleware_ok_inv h
  exact ⟨by simp [app, h], ⟨x, hra, hx⟩, ⟨y, hrb, hy⟩⟩

theorem c1_handler_only_after_validation_witness :
    app { path := RoutePath.add, query := { a := some "1", b := some "2" } } =
      dispatch RoutePath.add
        { req := { path := RoutePath.add, query := { a := some "1", b := some "2" } },
          a := some 1, b := some 2 } ∧
      (∃ x, (some (1 : Int)) = some x ∧ x ≠ 0) ∧
      (∃ y, (some (2 : Int)) = some y ∧ y ≠ 0) :=
  c1_handler_only_after_validation
    { path := RoutePath.add, query := { a := some "1", b := some "2" } }
    { req := { path := RoutePath.add, query := { a := some "1", b := some "2" } },
      a := some 1, b := some 2 }
    (by rfl)

/-- C2: a request whose parameter a or b is missing, non-numeric
(parseInt yields NaN), or zero is answered by the middleware itself with
status 422 and the plain-text body, and the route handler is not invoked:
the pipeline response is the middleware response. -/
theorem c2_invalid_input_yields_422 (req : Request)
    (h : req.query.a = none ∨ parseIntJS req.query.a = none ∨
         parseIntJS req.query.a = some 0 ∨ req.query.b = none ∨
         parseIntJS req.query.b = none ∨ parseIntJS req.query.b = some 0) :
    middleware req = Except.error { status := 422, body := Body.text errorBody } ∧
      app req = { status := 422, body := Body.text errorBody } := by
  have herr : middleware req =
      Except.error { status := 422, body := Body.text errorBody } := by
    apply middleware_error_of
    rcases h with h | h | h | h | h | h
    · exact Or.inl (by rw [h]; rfl)
    · exact Or.inl h
    · exact Or.inr (Or.inl h)
    · exact Or.inr (Or.inr (Or.inl (by rw [h]; rfl)))
    · exact Or.inr (Or.inr (Or.inl h))
    · exact Or.inr (Or.inr (Or.inr h))
  exact ⟨herr, by simp [app, herr]⟩

theorem c2_invalid_input_yields_422_witness :
    middleware { path := RoutePath.add, query := { a := some "string", b := some "2" } } =
      Except.error { status := 422, body := Body.text errorBody } ∧
      app { path := RoutePath.add, query := { a := some "string", b := some "2" } } =
        { status := 422, body := Body.text errorBody } :=
  c2_invalid_input_yields_422
    { path := RoutePath.add, query := { a := some "string", b := some "2" } }
    (Or.inr (Or.inl (by rfl)))

/-- C3: for all nonzero integers x and y, a GET request to the add route
with a=x and b=y in the query string returns 200 and a JSON body whose
result field is x + y. -/
theorem c3_add_endpoint_correct (x y : Int) (hx : x ≠ 0) (hy : y ≠ 0) :
    app (requestFor RoutePath.add x y) =
      { status := 200, body := Body.json (some (x + y)) } := by
  have hmw := middleware_ok_of (requestFor RoutePath.add x y)
    (parseIntJS_intRepr x) hx (parseIntJS_intRepr y) hy
  simp only [app, hmw]
  simp [requestFor, dispatch, addRoute, add]

theorem c3_add_endpoint_correct_witness :
    app (requestFor RoutePath.add 1 1) =
      { status := 200, body := Body.json (some 2) } :=
  c3_add_endpoint_correct 1 1 (by decide) (by decide)

/-- C4: for all nonzero integers x and y, a GET request to the subtract
route with a=x and b=y in the query string returns 200 and a JSON body
whose result field is x - y. -/
theorem c4_subtract_endpoint_correct (x y : Int) (hx : x ≠ 0) (hy : y ≠ 0) :
    app (requestFor RoutePath.subtract x y) =
      { status := 200, body := Body.json (some (x - y)) } := by
  have hmw := middleware_ok_of (requestFor RoutePath.subtract x y)
    (parseIntJS_intRepr x) hx (parseIntJS_intRepr y) hy
  simp only [app, hmw]
  simp [requestFor, dispatch, subtractRoute, subtract]

theorem c4_subtract_endpoint_correct_witness :
    app (requestFor RoutePath.subtract 5 4) =
      { status := 200, body := Body.json (some 1) } :=
  c4_subtract_endpoint_correct 5 4 (by decide) (by decide)

/-- C5: the arithmetic functions are pure functions of their arguments and
correct: on integer inputs, add returns the sum and subtract the
difference; in particular add(1,1) = 2, add(-2,-2) = -4 and
subtract(5,4) = 1. -/
theorem c5_arith_functions_correct :
    (∀ x y : Int, add (some x) (some y) = some (x + y) ∧
        subtract (some x) (some y) = some (x - y)) ∧
      add (some 1) (some 1) = some 2 ∧
      add (some (-2)) (some (-2)) = some (-4) ∧
      subtract (some 5) (some 4) = some 1 :=
  ⟨fun _ _ => ⟨rfl, rfl⟩, by decide, by decide, by decide⟩

/-- C6: on successful validation (both parameters parse to nonzero
integers) the middleware attaches exactly the two parsed integers as
fields a and b, carries the request through otherwise unchanged, and
invokes the next stage. -/
theorem c6_success_attaches_parsed_ints (req : Request) (x y : Int)
    (ha : parseIntJS req.query.a = some x) (hx : x ≠ 0)
    (hb : parseIntJS req.query.b = some y) (hy : y ≠ 0) :
    middleware req = Except.ok { req := req, a := some x, b := some y } :=
  middleware_ok_of req ha hx hb hy

theorem c6_success_attaches_parsed_ints_witness :
    middleware { path := RoutePath.subtract, query := { a := some "5", b := some "4" } } =
      Except.ok
        { req := { path := RoutePath.subtract, query := { a := some "5", b := some "4" } },
          a := some 5, b := some 4 } :=
  c6_success_attaches_parsed_ints
    { path := RoutePath.subtract, query := { a := some "5", b := some "4" } }
    5 4 (by rfl) (by decide) (by rfl) (by decide)

/-- C7: the pipeline is deterministic and stateless across requests: in a
served sequence of requests, any two positions holding identical requests
receive identical responses. -/
theorem c7_identical_requests_identical_responses (reqs : List Request)
    (i j : Nat) (req : Request)
    (hi : reqs[i]? = some req) (hj : reqs[j]? = some req) :
    (serve reqs)[i]? = (serve reqs)[j]? := by
  simp [serve, List.getElem?_map, hi, hj]

theorem c7_identical_requests_identical_responses_witness :
    (serve [{ path := RoutePath.add, query := { a := some "1", b := some "1" } },
            { path := RoutePath.add, query := { a := some "1", b := some "1" } }])[0]? =
    (serve [{ path := RoutePath.add, query := { a := some "1", b := some "1" } },
            { path := RoutePath.add, query := { a := some "1", b := some "1" } }])[1]? :=
  c7_identical_requests_identical_responses _ 0 1
    { path := RoutePath.add, query := { a := some "1", b := some "1" } }
    (by rfl) (by rfl)

/-- C8: validation failure is handled entirely inside the middleware and
the only error surfaced is 422: every request either reaches its handler
through a successful validation and gets a 200 response, or gets the
middleware 422 text response directly. -/
theorem c8_only_200_or_422 (req : Request) :
    (∃ r, middleware req = Except.ok r ∧ app req = dispatch req.path r ∧
        (app req).status = 200) ∨
      (middleware req = Except.error { status := 422, body := Body.text errorBody } ∧
        app req = { status := 422, body := Body.text errorBody }) := by
  cases hm : middleware req with
  | error e =>
    have he : e = { status := 422, body := Body.text errorBody } := by
      simp only [middleware] at hm
      split at hm
      · exact (Except.error.injEq _ _).mp hm.symm
      · exact absurd hm (by simp)
    subst he
    exact Or.inr ⟨rfl, by simp [app, hm]⟩
  | ok r =>
    refine Or.inl ⟨r, rfl, by simp [app, hm], ?_⟩
    have happ : app req = dispatch req.path r := by simp [app, hm]
    rw [happ]
    cases req.path <;> simp [dispatch, addRoute, subtractRoute]

/-- C9: validation accepts strings that are not integer literals: whenever
parseInt extracts a nonzero integer from each parameter string (such as 3
from "3.9" or 5 from "5abc"), the middleware succeeds and forwards exactly
those integers, instead of responding 422. -/
theorem c9_prefix_parsed_strings_accepted (p : RoutePath) (sa sb : String)
    (na nb : Int)
    (ha : parseIntJS (some sa) = some na) (hna : na ≠ 0)
    (hb : parseIntJS (some sb) = some nb) (hnb : nb ≠ 0) :
    middleware { path := p, query := { a := some sa, b := some sb } } =
      Except.ok
        { req := { path := p, query := { a := some sa, b := some sb } },
          a := some na, b := some nb } :=
  middleware_ok_of _ ha hna hb hnb

theorem c9_prefix_parsed_strings_accepted_witness :
    middleware { path := RoutePath.add, query := { a := some "3.9", b := some "5abc" } } =
      Except.ok
        { req := { path := RoutePath.add, query := { a := some "3.9", b := some "5abc" } },
          a := some 3, b := some 5 } :=
  c9_prefix_parsed_strings_accepted RoutePath.add "3.9" "5abc" 3 5
    (by rfl) (by decide) (by rfl) (by decide)

/-- C10: the isNaN disjuncts of the failure condition are redundant: the
middleware whose condition is reduced to the two falsy checks alone
produces exactly the same outcome (response or context mutation) as the
full middleware, on every request. -/
theorem c10_isnan_checks_redundant (req : Request) :
    middlewareNoNaNCheck req = middleware req := by
  simp only [middleware, middlewareNoNaNCheck]
  cases ha : parseIntJS req.query.a <;> cases hb : parseIntJS req.query.b <;>
    simp [jsNot, isNaN]
